import Mathlib

/-
Verification development for the `download_manager.py` transfer engine.

The Python source is shallowly embedded: pure helpers become Lean
functions on `String` / `List Char`, Python `int` becomes `ℤ` (or `ℕ`
where the value is a byte count that only grows), Python `float`
arithmetic is idealised as exact rational (`ℚ`) arithmetic — every
concrete value appearing in a theorem below has been checked to give the
same result under IEEE double arithmetic — and a Python exception that
escapes a function is an `Except.error` / an explicit error field.
-/

/-! ## Character and decimal-literal helpers -/

/-- ASCII digit test, the model of the regex class `\d` (inputs are ASCII). -/
def digitCls (c : Char) : Bool := '0' ≤ c && c ≤ '9'

/-- ASCII whitespace, the model of Python's `str.strip` default set and of
the regex class `\s` (inputs are ASCII). -/
def isPySpace (c : Char) : Bool :=
  c = ' ' || c = '\t' || c = '\n' || c = '\r' || c = '\x0b' || c = '\x0c'

/-- ASCII uppercase of one character, the model of `str.upper` on ASCII input. -/
def toUpperChar (c : Char) : Char :=
  if 'a' ≤ c ∧ c ≤ 'z' then Char.ofNat (c.toNat - 32) else c

/-- Model of `str.upper` (character-wise, ASCII). -/
def strUpper (cs : List Char) : List Char := cs.map toUpperChar

/-- Model of `str.endswith` for a one-character suffix. -/
def endsWithC (cs : List Char) (c : Char) : Bool :=
  match cs.getLast? with
  | some c' => c' == c
  | none => false

/-- Model of `str.strip()` (ASCII whitespace). -/
def pyStrip (s : String) : String :=
  String.mk (((s.toList.dropWhile isPySpace).reverse.dropWhile isPySpace).reverse)

def digitVal (c : Char) : ℕ := c.toNat - 48

def natOfDigits (ds : List Char) : ℕ := ds.foldl (fun a c => 10 * a + digitVal c) 0

/-- Model of Python `float(s)` on the decimal literals this program feeds it:
an optional sign followed by digits with an optional fractional part.
`none` models `float` raising `ValueError`.  (Scientific notation, `inf`,
`nan` and underscores are outside the token space of this program; float
arithmetic is idealised as exact `ℚ`.) -/
def pyFloat (cs : List Char) : Option ℚ :=
  let (sgn, rest) : ℚ × List Char :=
    match cs with
    | '-' :: r => (-1, r)
    | '+' :: r => (1, r)
    | r => (1, r)
  let intPart := rest.takeWhile digitCls
  let rest1 := rest.dropWhile digitCls
  match rest1 with
  | [] => if intPart.isEmpty then none else some (sgn * natOfDigits intPart)
  | '.' :: rest2 =>
    let fracPart := rest2.takeWhile digitCls
    let rest3 := rest2.dropWhile digitCls
    if rest3.isEmpty = false then none
    else if intPart.isEmpty && fracPart.isEmpty then none
    else some (sgn * ((natOfDigits intPart : ℚ) + (natOfDigits fracPart : ℚ) / (10 : ℚ) ^ fracPart.length))
  | _ => none

/-- Model of Python `int(x)` on a real value: truncation toward zero. -/
def pyTrunc (q : ℚ) : ℤ := q.num.tdiv q.den

/-- Rounding to the nearest integer (half rounds up).  This follows the
spec's word "round"; it agrees with Python's banker's rounding at every
half-free input and at the concrete inputs used below. -/
def roundSpec (q : ℚ) : ℤ := (q + 1/2).num.fdiv ((q + 1/2).den : ℤ)

/-! ## SizeParser: `parse_size_to_bytes` (source lines 19-38)

Source:
```
def parse_size_to_bytes(size_str: str) -> int:
    if not size_str or size_str == 'N/A':
        return 0
    size_str = size_str.upper()
    if size_str.endswith('B'):
        size_str = size_str[:-1]
    if size_str.endswith('K'):
        return int(float(size_str[:-1]) * 1024)
    elif size_str.endswith('M'):
        return int(float(size_str[:-1]) * 1024**2)
    elif size_str.endswith('G'):
        return int(float(size_str[:-1]) * 1024**3)
    else:
        try:
            return int(float(size_str))
        except ValueError:
            return 0
```
Only the final branch catches `ValueError`; a failing `float` in a
K/M/G branch escapes the function, modelled as `Except.error`. -/

deriving instance DecidableEq for Except

/-- The uppercased, trailing-`B`-stripped form of the input (the value of
the local `size_str` when the unit branches are examined). -/
def preprocess (s : String) : List Char :=
  let cs := strUpper s.toList
  if endsWithC cs 'B' then cs.dropLast else cs

/-- Model of `parse_size_to_bytes`. -/
def parse_size_to_bytes (s : String) : Except String ℤ :=
  if s = "" ∨ s = "N/A" then .ok 0
  else
    let t := preprocess s
    if endsWithC t 'K' then
      match pyFloat t.dropLast with
      | some q => .ok (pyTrunc (q * 1024))
      | none => .error "ValueError"
    else if endsWithC t 'M' then
      match pyFloat t.dropLast with
      | some q => .ok (pyTrunc (q * 1024 ^ 2))
      | none => .error "ValueError"
    else if endsWithC t 'G' then
      match pyFloat t.dropLast with
      | some q => .ok (pyTrunc (q * 1024 ^ 3))
      | none => .error "ValueError"
    else
      match pyFloat t with
      | some q => .ok (pyTrunc q)
      | none => .ok 0

unseal Rat.mul Rat.add Rat.inv Rat.sub in
/-- C1 The spec's examples for SizeParser.  Three of the four hold, but
`parse_size_to_bytes "12.34MiB"` returns 0, not `⌊12.34·1024²⌋ = 12939427`:
after uppercasing and stripping one trailing `B` the token is `"12.34MI"`,
which matches no unit branch, and `float("12.34MI")` fails, so the
fallback returns 0 — contradicting the function's own docstring example
`'12.34MiB'`. -/
theorem c1_sizeparser_examples :
    parse_size_to_bytes "12.34MiB" = Except.ok 0
    ∧ parse_size_to_bytes "N/A" = Except.ok 0
    ∧ parse_size_to_bytes "" = Except.ok 0
    ∧ parse_size_to_bytes "500" = Except.ok 500
    ∧ pyTrunc ((1234 : ℚ) / 100 * 1024 ^ 2) = 12939427
    ∧ (0 : ℤ) ≠ 12939427 := by
  refine ⟨by decide, by decide, by decide, by decide, by decide, by decide⟩

/-- Model of the regex class `.` (any character except a newline). -/
def dotCls (c : Char) : Bool := c != '\n'

/-- Model of `\S`. -/
def nonWsCls (c : Char) : Bool := !isPySpace c

/-- One token of the flattened pattern: a literal character, a greedy
one-or-more / zero-or-more repetition of a one-character class, or a
capture-group delimiter.  (Every quantifier in the source pattern applies
to a one-character class, so this token language covers it exactly.) -/
inductive Tok where
  | lit : Char → Tok
  | plus : (Char → Bool) → Tok
  | star : (Char → Bool) → Tok
  | gopen : Tok
  | gclose : Tok

/-- Remainders of `s` after greedily consuming a prefix of `cls`-characters,
longest consumption first (the last element is `s` itself, i.e. zero
consumed). -/
def greedySuffixes (cls : Char → Bool) : List Char → List (List Char)
  | [] => [[]]
  | c :: rest => if cls c then greedySuffixes cls rest ++ [c :: rest] else [c :: rest]

/-- First success of `f` over a list of candidate remainders. -/
def tryEach (f : List Char → Option α) : List (List Char) → Option α
  | [] => none
  | s :: rest =>
    match f s with
    | some a => some a
    | none => tryEach f rest

/-- The backtracking matcher.  `opens` holds, innermost first, the input
remainder at each currently open group; `done` the completed captures in
order of closing. -/
def mrun : List Tok → List Char → List (List Char) → List (List Char) → Option (List (List Char))
  | [], _, _, done => some done
  | .lit c :: ts, s, opens, done =>
    match s with
    | c' :: s' => if c' = c then mrun ts s' opens done else none
    | [] => none
  | .plus f :: ts, s, opens, done =>
    tryEach (fun s' => mrun ts s' opens done) ((greedySuffixes f s).dropLast)
  | .star f :: ts, s, opens, done =>
    tryEach (fun s' => mrun ts s' opens done) (greedySuffixes f s)
  | .gopen :: ts, s, opens, done => mrun ts s (s :: opens) done
  | .gclose :: ts, s, opens, done =>
    match opens with
    | o :: os => mrun ts s os (done ++ [o.take (o.length - s.length)])
    | [] => none

def litToks (s : String) : List Tok := s.toList.map Tok.lit

/-- The flattened pattern `.*\s+(\d+\.\d+)% of (\S+) at (\S+)/s ETA (\S+)`. -/
def progressToks : List Tok :=
  [Tok.star dotCls, Tok.plus isPySpace,
   Tok.gopen, Tok.plus digitCls, Tok.lit '.', Tok.plus digitCls, Tok.gclose]
  ++ litToks "% of "
  ++ [Tok.gopen, Tok.plus nonWsCls, Tok.gclose]
  ++ litToks " at "
  ++ [Tok.gopen, Tok.plus nonWsCls, Tok.gclose]
  ++ litToks "/s ETA "
  ++ [Tok.gopen, Tok.plus nonWsCls, Tok.gclose]

/-- Model of `progress_re.match(line_str)`: `none` when the line does not
match, otherwise the four captured groups
(percent, total-size token, rate token, ETA token). -/
def progressMatch (line : String) : Option (List String) :=
  (mrun progressToks line.toList [] []).map (fun gs => gs.map fun cs => String.mk cs)

/-! ## ProgressModel and the adapter `_parse_yt_dlp_progress` (source lines 285-307) -/

/-- The observable progress state of one `DownloadItem`: the reactive
properties `bytes_downloaded`, `total_size` and `download_speed`. -/
structure ProgressModel where
  bytes_downloaded : ℤ
  total_size : ℤ
  download_speed : ℚ
deriving DecidableEq

/-- One iteration of the adapter loop body on a raw line from
`readline()`.  Mirrors `line_str = line.decode().strip()` followed by
`match = progress_re.match(line_str)` and, on a match, in order,
```
self.bytes_downloaded = int(float(percent_str) / 100 * parse_size_to_bytes(total_size_str))
self.total_size = parse_size_to_bytes(total_size_str)
self.download_speed = parse_size_to_bytes(speed_str)
```
and no assignment otherwise.  (The `strip()` matters: it removes leading
whitespace, so a line whose only whitespace before the percent token was
leading no longer satisfies the pattern's mandatory `\s+` and is
ignored.)  The second component is `some e` when a `ValueError` escapes
(aborting the loop); the returned model is the state at that moment,
since earlier assignments have already happened. -/
def ytStep (m : ProgressModel) (line : String) : ProgressModel × Option String :=
  match progressMatch (pyStrip line) with
  | some [percentS, totalS, _speedS, _etaS] =>
    match pyFloat percentS.toList with
    | none => (m, some "ValueError")
    | some p =>
      match parse_size_to_bytes totalS with
      | .error e => (m, some e)
      | .ok tv =>
        let m1 := { m with bytes_downloaded := pyTrunc (p / 100 * (tv : ℚ)) }
        let m2 := { m1 with total_size := tv }
        match parse_size_to_bytes _speedS with
        | .error e => (m2, some e)
        | .ok sv => ({ m2 with download_speed := (sv : ℚ) }, none)
  | _ => (m, none)

/-- The states of the `ProgressModel` after each consumed stderr line
(stopping after a line whose processing raises). -/
def ytTrace (m : ProgressModel) : List String → List ProgressModel
  | [] => []
  | l :: ls =>
    match ytStep m l with
    | (m', none) => m' :: ytTrace m' ls
    | (m', some _) => [m']

unseal Rat.mul Rat.add Rat.inv Rat.sub in
/-- C3 counterexample: the adapter truncates toward zero, it does not
round.  For the diagnostic line `"[download]  50.0% of 103 at 100/s ETA 00:08"`
(which still matches after the loop's `strip()`) the code stores
`bytes_downloaded = int(0.5 * 103) = 51`, while the claim's
`round(percent/100 * totalSize)` is `52`. -/
theorem c3_trunc_not_round_counterexample :
    ytStep ⟨0, 0, 0⟩ "[download]  50.0% of 103 at 100/s ETA 00:08"
      = (⟨51, 103, 100⟩, none)
    ∧ roundSpec ((50 : ℚ) / 100 * 103) = 52
    ∧ (51 : ℤ) ≠ 52 := by
  refine ⟨by decide, by decide, by decide⟩

unseal Rat.mul Rat.add Rat.inv Rat.sub in
/-- C3 amended: for every diagnostic line matching the progress pattern
(with tokens whose parses succeed) the adapter sets
`total_size = SizeParser(total token)`,
`bytes_downloaded = trunc(percent/100 · total_size)` — truncation toward
zero, not rounding — and `speed = SizeParser(rate token)`; a line that
does not match the pattern causes no `ProgressModel` update. -/
theorem c3_adapter_updates (m : ProgressModel) (line : String)
    (pS tS sS eS : String) (q : ℚ) (tv sv : ℤ)
    (hm : progressMatch (pyStrip line) = some [pS, tS, sS, eS])
    (hp : pyFloat pS.toList = some q)
    (ht : parse_size_to_bytes tS = Except.ok tv)
    (hs : parse_size_to_bytes sS = Except.ok sv) :
    ytStep m line = (⟨pyTrunc (q / 100 * (tv : ℚ)), tv, (sv : ℚ)⟩, none)
    ∧ ∀ l', progressMatch (pyStrip l') = none → ytStep m l' = (m, none) := by
  constructor
  · simp only [ytStep, hm, hp, ht, hs]
  · intro l' h
    simp only [ytStep, h]

unseal Rat.mul Rat.add Rat.inv Rat.sub in
/-- C3 witness: a concrete instance of the amended statement. -/
theorem c3_adapter_updates_witness :
    ytStep ⟨0, 0, 0⟩ "[download]  10.0% of 200 at 5/s ETA 00:08"
      = (⟨pyTrunc ((10 : ℚ) / 100 * ((200 : ℤ) : ℚ)), 200, ((5 : ℤ) : ℚ)⟩, none)
    ∧ ∀ l', progressMatch (pyStrip l') = none → ytStep ⟨0, 0, 0⟩ l' = (⟨0, 0, 0⟩, none) :=
  c3_adapter_updates ⟨0, 0, 0⟩ "[download]  10.0% of 200 at 5/s ETA 00:08"
    "10.0" "200" "5" "00:08"
    ((10 : ℚ)) 200 5 (by decide) (by decide) (by decide) (by decide)

unseal Rat.mul Rat.add Rat.inv Rat.sub in
/-- C7 counterexample: the external-tool adapter does not keep
`bytes_downloaded` monotone.  yt-dlp-style output may report a lower
percentage in a later line (as it really does when a second stream starts
downloading); both lines below match after the loop's `strip()`, and the
adapter simply overwrites, so the value drops from 50 to 10. -/
theorem c7_adapter_decreases_counterexample :
    ytTrace ⟨0, 0, 0⟩ ["[download]  50.0% of 100 at 1/s ETA 00:01",
                       "[download]  10.0% of 100 at 1/s ETA 00:01"]
      = [⟨50, 100, 1⟩, ⟨10, 100, 1⟩]
    ∧ ¬ List.Chain' (· ≤ ·)
        ((ytTrace ⟨0, 0, 0⟩ ["[download]  50.0% of 100 at 1/s ETA 00:01",
                             "[download]  10.0% of 100 at 1/s ETA 00:01"]).map
          ProgressModel.bytes_downloaded) := by
  have htr : ytTrace ⟨0, 0, 0⟩ ["[download]  50.0% of 100 at 1/s ETA 00:01",
                                "[download]  10.0% of 100 at 1/s ETA 00:01"]
      = [⟨50, 100, 1⟩, ⟨10, 100, 1⟩] := by decide
  refine ⟨htr, ?_⟩
  rw [htr]
  simp only [List.map_cons, List.map_nil, List.chain'_cons, List.chain'_singleton, and_true]
  decide

/-! ## ExternalProcessTransfer: `download_youtube_video` (source lines 214-283)

The subprocess is modelled by its observable interface: whether the
`yt-dlp` binary is found, the list of lines the diagnostic (stderr) pipe
delivers before EOF, and the exit code.  `_parse_yt_dlp_progress` reads
that pipe with `readline()` until it returns empty, so the loop consumes
the whole list; the later `process.stderr.read()` then reads from the
same exhausted pipe, i.e. whatever lines the loop left unconsumed. -/

/-- Result of the `_parse_yt_dlp_progress` read loop: the final model, the
part of the stderr stream it did NOT consume, and the exception that
aborted it, if any. -/
structure LoopResult where
  model : ProgressModel
  rest : List String
  exc : Option String
deriving DecidableEq

/-- Model of the `while True: line = await stderr_stream.readline(); ...`
loop of `_parse_yt_dlp_progress`. -/
def ytParseLoop : ProgressModel → List String → LoopResult
  | m, [] => ⟨m, [], none⟩
  | m, l :: ls =>
    match ytStep m l with
    | (m', none) => ytParseLoop m' ls
    | (m', some e) => ⟨m', ls, some e⟩

/-- Terminal outcome of a transfer strategy, as posted to the app
(`DownloadSuccess` / `DownloadFailed(error)`). -/
inductive Outcome where
  | success : Outcome
  | failed : String → Outcome
deriving DecidableEq

/-- Containment of one character list in another, the model of Python's
`in` on strings. -/
def containsSub (needle : List Char) : List Char → Bool
  | [] => needle.isEmpty
  | c :: t => needle.isPrefixOf (c :: t) || containsSub needle t

/-- Model of `download_youtube_video`, parameterised by the subprocess's
observable behaviour.  After the progress loop has drained stderr,
`process.stderr.read()` returns exactly the unconsumed part of the
stream (joined back into one chunk). -/
def download_youtube_video (ytDlpFound : Bool) (stderrLines : List String)
    (returncode : ℤ) (m : ProgressModel) : Outcome :=
  if ytDlpFound = false then .failed "yt-dlp not found."
  else
    let r := ytParseLoop m stderrLines
    match r.exc with
    | some e => .failed ("yt-dlp execution error: " ++ e)
    | none =>
      if returncode = 0 then .success
      else
        let remaining_stderr := pyStrip (String.intercalate "\n" r.rest)
        let error_message := if remaining_stderr = "" then "Unknown yt-dlp error." else remaining_stderr
        .failed ("yt-dlp failed: " ++ error_message)

/-- The progress loop reads until `readline` returns empty, so when no
exception aborts it, it leaves nothing in the stream. -/
theorem ytParseLoop_consumes_all (ls : List String) : ∀ m : ProgressModel,
    (ytParseLoop m ls).exc = none → (ytParseLoop m ls).rest = [] := by
  induction ls with
  | nil => intro m _; rfl
  | cons l ls ih =>
    intro m h
    unfold ytParseLoop at h ⊢
    cases hs : ytStep m l with
    | mk m' e =>
      cases e with
      | none => simp only [hs] at h ⊢; exact ih m' h
      | some err => simp [hs] at h

unseal Rat.mul Rat.add Rat.inv Rat.sub in
/-- C4 The exit-code handling.  Exit code 0 does report Success, and a
nonzero code does report Failure — but the failure message is ALWAYS the
generic `"yt-dlp failed: Unknown yt-dlp error."`: the progress loop has
already drained stderr to EOF, so the later `process.stderr.read()`
(comment in the source: "Read any remaining stderr for final error
message") always returns empty and the captured diagnostic text is lost.
In particular exit code 1 with stderr line `"ERROR: Video unavailable"`
yields a message that does not contain "Video unavailable". -/
theorem c4_exit_code_behavior :
    (∀ (lines : List String) (rc : ℤ) (m : ProgressModel),
        (ytParseLoop m lines).exc = none →
        (rc = 0 → download_youtube_video true lines rc m = .success)
        ∧ (rc ≠ 0 → download_youtube_video true lines rc m
            = .failed "yt-dlp failed: Unknown yt-dlp error."))
    ∧ download_youtube_video true ["ERROR: Video unavailable"] 1 ⟨0, 0, 0⟩
        = .failed "yt-dlp failed: Unknown yt-dlp error."
    ∧ containsSub "Video unavailable".toList "yt-dlp failed: Unknown yt-dlp error.".toList = false := by
  refine ⟨?_, by decide, by decide⟩
  intro lines rc m h
  have hrest := ytParseLoop_consumes_all lines m h
  constructor
  · intro hrc
    simp [download_youtube_video, h, hrc]
  · intro hrc
    simp [download_youtube_video, h, hrest, hrc, pyStrip, String.intercalate]

/-- C4 witness: a concrete instance of the universally quantified part. -/
theorem c4_exit_code_behavior_witness :
    download_youtube_video true [] 1 ⟨0, 0, 0⟩
      = .failed "yt-dlp failed: Unknown yt-dlp error." :=
  ((c4_exit_code_behavior.1 [] 1 ⟨0, 0, 0⟩ rfl).2 (by decide))

/-! ## HTTPResumableTransfer: `download_file` (source lines 165-211)

The HTTP response is modelled by its observable interface: status code,
`content-length` header (absent or a number) and the sequence of body
chunks, each paired with the `time.monotonic()` value observed right
after it is written (source reads the clock once per chunk, after
`f.write`).  The clock and the chunk lengths are otherwise arbitrary. -/

/-- One body chunk: its byte length and the `time.monotonic()` reading
taken in the loop iteration that handled it. -/
structure Chunk where
  len : ℕ
  time : ℚ
deriving DecidableEq

/-- Observable behaviour of the `httpx` response. -/
structure HttpResponse where
  status : ℕ
  contentLength : Option ℕ
  chunks : List Chunk
deriving DecidableEq

/-- State captured after each loop iteration: `bytes_downloaded` and
`download_speed`. -/
structure Snap where
  bytes : ℕ
  speed : ℚ
deriving DecidableEq

/-- One speed recomputation: `bytes_diff`, `time_diff`, and the value
stored in `download_speed`. -/
structure SpeedSample where
  dBytes : ℚ
  dTime : ℚ
  value : ℚ
deriving DecidableEq

/-- Model of the `async for chunk in response.aiter_bytes()` loop:
```
f.write(chunk)
self.bytes_downloaded += len(chunk)
current_time = time.monotonic()
time_diff = current_time - last_update_time
if time_diff > 0.5:
    bytes_diff = self.bytes_downloaded - last_downloaded
    self.download_speed = bytes_diff / time_diff if time_diff > 0 else 0
    last_update_time = current_time
    last_downloaded = self.bytes_downloaded
```
Returns the per-iteration snapshots and the list of speed recomputations. -/
def dfLoop (bytes last_downloaded : ℕ) (last_update_time speed : ℚ) :
    List Chunk → List Snap × List SpeedSample
  | [] => ([], [])
  | c :: cs =>
    let bytes' := bytes + c.len
    let time_diff := c.time - last_update_time
    if 1/2 < time_diff then
      let bytes_diff : ℚ := (bytes' : ℚ) - (last_downloaded : ℚ)
      let speed' := if 0 < time_diff then bytes_diff / time_diff else 0
      let r := dfLoop bytes' bytes' c.time speed' cs
      (⟨bytes', speed'⟩ :: r.1, ⟨bytes_diff, time_diff, speed'⟩ :: r.2)
    else
      let r := dfLoop bytes' last_downloaded last_update_time speed cs
      (⟨bytes', speed⟩ :: r.1, r.2)

/-- Model of `httpx.Response.raise_for_status()`: raises `HTTPStatusError`
exactly when the status is not a 2xx success status (the message is a
representative of httpx's). -/
def raise_for_status (status : ℕ) : Except String Unit :=
  if 200 ≤ status ∧ status < 300 then .ok () else .error ("HTTP status error " ++ toString status)

/-- Everything `download_file` does that the claims observe: the request's
Range header, the file open mode, the terminal outcome, the seeded
`bytes_downloaded`, the reported `total_size`, and the loop's snapshots
and speed samples. -/
structure DfResult where
  rangeHeader : Option String
  fileMode : String
  outcome : Outcome
  initialBytes : ℕ
  totalSize : ℤ
  snaps : List Snap
  samples : List SpeedSample
deriving DecidableEq

/-- Model of `download_file(url, resume_from)`, with `t0` the
`time.monotonic()` reading taken at function entry. -/
def download_file (resume_from : ℕ) (t0 : ℚ) (resp : HttpResponse) : DfResult :=
  let hdr := if 0 < resume_from then some ("bytes=" ++ toString resume_from ++ "-") else none
  let mode := if 0 < resume_from then "ab" else "wb"
  let proceed : DfResult :=
    let total0 : ℤ := (resp.contentLength.getD 0 : ℤ)
    let total : ℤ := if 0 < resume_from then total0 + (resume_from : ℤ) else total0
    let r := dfLoop resume_from resume_from t0 0 resp.chunks
    ⟨hdr, mode, .success, resume_from, total, r.1, r.2⟩
  if resp.status = 200 ∨ resp.status = 206 then proceed
  else
    match raise_for_status resp.status with
    | .ok _ => proceed
    | .error e => ⟨hdr, mode, .failed e, resume_from, 0, [], []⟩

/-- C2 The resumable request shape: with a positive resume offset the
request carries `Range: bytes=<offset>-` and the file is opened `"ab"`
(append); with offset 0 there is no Range header and the file is opened
`"wb"` (create/truncate); `bytes_downloaded` is seeded to the offset; and
on a success start the reported total is the content-length header plus
the offset (plus nothing when the offset is 0). -/
theorem c2_http_resume_request (resume_from : ℕ) (t0 : ℚ) (resp : HttpResponse) :
    (download_file resume_from t0 resp).initialBytes = resume_from
    ∧ (0 < resume_from →
        (download_file resume_from t0 resp).rangeHeader
          = some ("bytes=" ++ toString resume_from ++ "-")
        ∧ (download_file resume_from t0 resp).fileMode = "ab")
    ∧ (resume_from = 0 →
        (download_file resume_from t0 resp).rangeHeader = none
        ∧ (download_file resume_from t0 resp).fileMode = "wb")
    ∧ (resp.status = 200 ∨ resp.status = 206 →
        (download_file resume_from t0 resp).totalSize
          = (resp.contentLength.getD 0 : ℤ) + (resume_from : ℤ)) := by
  rcases Nat.eq_zero_or_pos resume_from with h0 | hpos
  · subst h0
    by_cases hok : 200 ≤ resp.status ∧ resp.status < 300 <;>
      by_cases hst : resp.status = 200 ∨ resp.status = 206 <;>
        simp [download_file, raise_for_status, hst, hok]
  · have hne : resume_from ≠ 0 := by omega
    by_cases hok : 200 ≤ resp.status ∧ resp.status < 300 <;>
      by_cases hst : resp.status = 200 ∨ resp.status = 206 <;>
        simp [download_file, raise_for_status, hst, hok, hpos, hne]

/-- C2 witness: a concrete resumed transfer. -/
theorem c2_http_resume_request_witness :
    (download_file 400000 0 ⟨206, some 600000, []⟩).initialBytes = 400000
    ∧ ((0 : ℕ) < 400000 →
        (download_file 400000 0 ⟨206, some 600000, []⟩).rangeHeader = some ("bytes=" ++ toString (400000 : ℕ) ++ "-")
        ∧ (download_file 400000 0 ⟨206, some 600000, []⟩).fileMode = "ab")
    ∧ ((400000 : ℕ) = 0 →
        (download_file 400000 0 ⟨206, some 600000, []⟩).rangeHeader = none
        ∧ (download_file 400000 0 ⟨206, some 600000, []⟩).fileMode = "wb")
    ∧ ((206 : ℕ) = 200 ∨ (206 : ℕ) = 206 →
        (download_file 400000 0 ⟨206, some 600000, []⟩).totalSize
          = ((Option.getD (some 600000) 0 : ℕ) : ℤ) + ((400000 : ℕ) : ℤ)) :=
  c2_http_resume_request 400000 0 ⟨206, some 600000, []⟩

unseal Rat.mul Rat.add Rat.inv Rat.sub in
/-- C5 The status handling.  Statuses other than 200/206 that are NOT 2xx
do fail the attempt with no data streamed — but a 2xx status other than
200/206 (e.g. 204) slips through: `raise_for_status()` raises only for
non-success statuses, so the code proceeds to stream and reports Success,
contradicting the claim that ANY other status yields Failure. -/
theorem c5_status_behavior :
    (download_file 0 0 ⟨204, some 5, [⟨5, 1⟩]⟩).outcome = .success
    ∧ (download_file 0 0 ⟨204, some 5, [⟨5, 1⟩]⟩).snaps ≠ []
    ∧ (∀ (resume_from : ℕ) (t0 : ℚ) (resp : HttpResponse),
        resp.status < 200 ∨ 300 ≤ resp.status →
        (download_file resume_from t0 resp).outcome
          = .failed ("HTTP status error " ++ toString resp.status)
        ∧ (download_file resume_from t0 resp).snaps = []) := by
  refine ⟨by decide, by decide, ?_⟩
  intro resume_from t0 resp h
  have h1 : ¬ (resp.status = 200 ∨ resp.status = 206) := by omega
  have h2 : ¬ (200 ≤ resp.status ∧ resp.status < 300) := by omega
  simp [download_file, raise_for_status, h1, h2]

/-- C5 witness: a concrete non-2xx status fails the attempt. -/
theorem c5_status_behavior_witness :
    (download_file 0 0 ⟨404, some 5, [⟨5, 1⟩]⟩).outcome
      = .failed ("HTTP status error " ++ toString (404 : ℕ))
    ∧ (download_file 0 0 ⟨404, some 5, [⟨5, 1⟩]⟩).snaps = [] :=
  c5_status_behavior.2.2 0 0 ⟨404, some 5, [⟨5, 1⟩]⟩ (by decide)

/-- In the chunk loop, `bytes_downloaded` grows by the chunk length each
iteration: the snapshot byte counts, with the starting value prepended,
form a non-decreasing chain. -/
theorem dfLoop_bytes_chain (chunks : List Chunk) : ∀ (b ld : ℕ) (lt sp : ℚ),
    List.Chain' (· ≤ ·) (b :: ((dfLoop b ld lt sp chunks).1.map Snap.bytes)) := by
  induction chunks with
  | nil => intro b ld lt sp; simp [dfLoop]
  | cons c cs ih =>
    intro b ld lt sp
    by_cases hd : (1 : ℚ)/2 < c.time - lt
    · simp only [dfLoop, hd, if_true, List.map_cons]
      exact List.chain'_cons.2 ⟨Nat.le_add_right b c.len, ih (b + c.len) (b + c.len) c.time _⟩
    · simp only [dfLoop, hd, if_false, List.map_cons]
      exact List.chain'_cons.2 ⟨Nat.le_add_right b c.len, ih (b + c.len) ld lt sp⟩

/-- In the chunk loop, every snapshot's byte count is bounded by the
starting value plus the total length of all chunks. -/
theorem dfLoop_bytes_le (chunks : List Chunk) : ∀ (b ld : ℕ) (lt sp : ℚ),
    ∀ s ∈ (dfLoop b ld lt sp chunks).1, s.bytes ≤ b + (chunks.map Chunk.len).sum := by
  induction chunks with
  | nil => intro b ld lt sp s hs; simp [dfLoop] at hs
  | cons c cs ih =>
    intro b ld lt sp s hs
    by_cases hd : (1 : ℚ)/2 < c.time - lt
    · simp only [dfLoop, hd, if_true] at hs
      rcases List.mem_cons.1 hs with h | h
      · subst h; simp
      · have := ih (b + c.len) (b + c.len) c.time _ s h
        simp only [List.map_cons, List.sum_cons] at this ⊢
        omega
    · simp only [dfLoop, hd, if_false] at hs
      rcases List.mem_cons.1 hs with h | h
      · subst h; simp
      · have := ih (b + c.len) ld lt sp s h
        simp only [List.map_cons, List.sum_cons] at this ⊢
        omega

/-- Every speed recomputation in the chunk loop has an elapsed divisor
strictly greater than 1/2 second, a non-negative byte delta, stores
exactly `bytes_diff / time_diff`, and is non-negative — provided the
running `last_downloaded` does not exceed the running byte count, which
`download_file` establishes by starting both at `resume_from`. -/
theorem dfLoop_samples_sound (chunks : List Chunk) : ∀ (b ld : ℕ) (lt sp : ℚ), ld ≤ b →
    ∀ smp ∈ (dfLoop b ld lt sp chunks).2,
      1/2 < smp.dTime ∧ 0 ≤ smp.dBytes ∧ smp.value = smp.dBytes / smp.dTime ∧ 0 ≤ smp.value := by
  induction chunks with
  | nil => intro b ld lt sp _ smp hs; simp [dfLoop] at hs
  | cons c cs ih =>
    intro b ld lt sp hld smp hs
    by_cases hd : (1 : ℚ)/2 < c.time - lt
    · have hdpos : (0 : ℚ) < c.time - lt := lt_trans (by norm_num) hd
      simp only [dfLoop, hd, if_true, hdpos] at hs
      rcases List.mem_cons.1 hs with h | h
      · subst h
        have hbn : (0 : ℚ) ≤ ((b + c.len : ℕ) : ℚ) - (ld : ℚ) := by
          have : (ld : ℚ) ≤ ((b + c.len : ℕ) : ℚ) := by
            exact_mod_cast le_trans hld (Nat.le_add_right b c.len)
          linarith
        refine ⟨hd, hbn, rfl, div_nonneg hbn (le_of_lt hdpos)⟩
      · exact ih (b + c.len) (b + c.len) c.time _ (le_refl _) smp h
    · simp only [dfLoop, hd, if_false] at hs
      exact ih (b + c.len) ld lt sp (le_trans hld (Nat.le_add_right b c.len)) smp hs

/-- The seeded byte count of `download_file` is the resume offset in every
branch (`self.bytes_downloaded = resume_from` runs before the `try`). -/
theorem download_file_initialBytes (resume_from : ℕ) (t0 : ℚ) (resp : HttpResponse) :
    (download_file resume_from t0 resp).initialBytes = resume_from := by
  by_cases hok : 200 ≤ resp.status ∧ resp.status < 300 <;>
    by_cases hst : resp.status = 200 ∨ resp.status = 206 <;>
      simp [download_file, raise_for_status, hst, hok]

/-- On a 2xx response the body is streamed: `download_file` reports the
content-length-plus-offset total and the loop's snapshots and samples. -/
theorem download_file_success_parts (resume_from : ℕ) (t0 : ℚ) (resp : HttpResponse)
    (h : 200 ≤ resp.status ∧ resp.status < 300) :
    (download_file resume_from t0 resp).totalSize
      = (resp.contentLength.getD 0 : ℤ) + (resume_from : ℤ)
    ∧ (download_file resume_from t0 resp).snaps
      = (dfLoop resume_from resume_from t0 0 resp.chunks).1
    ∧ (download_file resume_from t0 resp).samples
      = (dfLoop resume_from resume_from t0 0 resp.chunks).2 := by
  rcases Nat.eq_zero_or_pos resume_from with h0 | hpos
  · subst h0
    by_cases hst : resp.status = 200 ∨ resp.status = 206 <;>
      simp [download_file, raise_for_status, hst, h]
  · by_cases hst : resp.status = 200 ∨ resp.status = 206 <;>
      simp [download_file, raise_for_status, hst, h, hpos]

/-- On a non-2xx response the exception aborts the attempt before the
body loop: no snapshots, no speed samples. -/
theorem download_file_failure_parts (resume_from : ℕ) (t0 : ℚ) (resp : HttpResponse)
    (h : ¬ (200 ≤ resp.status ∧ resp.status < 300)) :
    (download_file resume_from t0 resp).snaps = []
    ∧ (download_file resume_from t0 resp).samples = [] := by
  have hst : ¬ (resp.status = 200 ∨ resp.status = 206) := by omega
  simp [download_file, raise_for_status, hst, h]

/-- C7 amended, HTTP part: during one `download_file` invocation
`bytes_downloaded` never decreases (unconditionally), and it stays at or
below the reported `total_size` provided the response body does not
deliver more bytes than its advertised content-length.  (The adapter
side of the claim fails: see the counterexample.) -/
theorem c7_http_invariants (resume_from : ℕ) (t0 : ℚ) (resp : HttpResponse) :
    List.Chain' (· ≤ ·) (((download_file resume_from t0 resp).initialBytes)
      :: ((download_file resume_from t0 resp).snaps.map Snap.bytes))
    ∧ ((resp.chunks.map Chunk.len).sum ≤ resp.contentLength.getD 0 →
        ∀ s ∈ (download_file resume_from t0 resp).snaps,
          (s.bytes : ℤ) ≤ (download_file resume_from t0 resp).totalSize) := by
  rw [download_file_initialBytes]
  by_cases hok : 200 ≤ resp.status ∧ resp.status < 300
  · obtain ⟨htot, hsnap, -⟩ := download_file_success_parts resume_from t0 resp hok
    rw [htot, hsnap]
    refine ⟨dfLoop_bytes_chain resp.chunks resume_from resume_from t0 0, ?_⟩
    intro hsum s hs
    have hb := dfLoop_bytes_le resp.chunks resume_from resume_from t0 0 s hs
    have hbz : (s.bytes : ℤ) ≤ (resume_from : ℤ) + ((resp.chunks.map Chunk.len).sum : ℤ) := by
      exact_mod_cast hb
    have hsz : ((resp.chunks.map Chunk.len).sum : ℤ) ≤ ((resp.contentLength.getD 0 : ℕ) : ℤ) := by
      exact_mod_cast hsum
    omega
  · obtain ⟨hsnap, -⟩ := download_file_failure_parts resume_from t0 resp hok
    rw [hsnap]
    exact ⟨by simp, by intro _ s hs; simp at hs⟩

unseal Rat.mul Rat.add Rat.inv Rat.sub in
/-- C7 witness: a concrete resumed transfer whose only snapshot respects
the bound. -/
theorem c7_http_invariants_witness :
    ((⟨5, 3⟩ : Snap).bytes : ℤ) ≤ (download_file 2 0 ⟨200, some 10, [⟨3, 1⟩]⟩).totalSize :=
  (c7_http_invariants 2 0 ⟨200, some 10, [⟨3, 1⟩]⟩).2 (by decide) ⟨5, 3⟩ (by decide)

/-- C8 Speed is recomputed only when the wall-clock delta since the last
sample exceeds 0.5 seconds: every recorded speed sample of a
`download_file` run has `time_diff > 1/2` (so the divisor is never zero
or negative), a non-negative `bytes_diff`, stores exactly
`bytes_diff / time_diff`, and is never negative. -/
theorem c8_speed_samples (resume_from : ℕ) (t0 : ℚ) (resp : HttpResponse) :
    ∀ smp ∈ (download_file resume_from t0 resp).samples,
      1/2 < smp.dTime ∧ 0 ≤ smp.dBytes ∧ smp.value = smp.dBytes / smp.dTime ∧ 0 ≤ smp.value := by
  intro smp hs
  by_cases hok : 200 ≤ resp.status ∧ resp.status < 300
  · obtain ⟨-, -, hsamp⟩ := download_file_success_parts resume_from t0 resp hok
    rw [hsamp] at hs
    exact dfLoop_samples_sound resp.chunks resume_from resume_from t0 0 (le_refl _) smp hs
  · obtain ⟨-, hsamp⟩ := download_file_failure_parts resume_from t0 resp hok
    rw [hsamp] at hs
    simp at hs

unseal Rat.mul Rat.add Rat.inv Rat.sub in
/-- C8 witness: the single sample of a concrete run. -/
theorem c8_speed_samples_witness :
    1/2 < (⟨10, 1, 10⟩ : SpeedSample).dTime
    ∧ 0 ≤ (⟨10, 1, 10⟩ : SpeedSample).dBytes
    ∧ (⟨10, 1, 10⟩ : SpeedSample).value
        = (⟨10, 1, 10⟩ : SpeedSample).dBytes / (⟨10, 1, 10⟩ : SpeedSample).dTime
    ∧ 0 ≤ (⟨10, 1, 10⟩ : SpeedSample).value :=
  c8_speed_samples 0 0 ⟨200, some 10, [⟨10, 1⟩]⟩ ⟨10, 1, 10⟩ (by decide)

/-! ## DownloadItem construction and button handling (source lines 93-163)

The on-disk state is modelled as an association list from path to entry
kind; `os.path.exists` is a lookup, `os.remove` deletes a file entry and
raises (`IsADirectoryError`) on a directory, as POSIX does.  The widget
side effects that the claims observe (cancelling the worker, starting a
download with a resume offset, posting the Cancelled message, removing
the widget) are recorded as an effect list. -/

inductive FType where
  | file : FType
  | dir : FType
deriving DecidableEq

/-- The modelled filesystem: paths mapped to entry kinds. -/
def FS : Type := List (String × FType)

def fsLookup (fs : FS) (p : String) : Option FType :=
  (List.find? (fun e => e.1 = p) fs).map (fun e => e.2)

/-- Model of `os.path.exists`. -/
def os_path_exists (fs : FS) (p : String) : Bool :=
  (fsLookup fs p).isSome

/-- Model of `os.remove`: removes a file, raises on a missing path or on
a directory (`os.remove` on a directory raises `IsADirectoryError`). -/
def os_remove (fs : FS) (p : String) : Except String FS :=
  match fsLookup fs p with
  | none => .error "FileNotFoundError"
  | some .dir => .error "IsADirectoryError"
  | some .file => .ok (List.filter (fun e => ¬ e.1 = p) fs)

/-- Model of `re.match(r"^(https?://)?(www\.)?(youtube\.com|youtu\.be)/", url)`
being truthy.  Each optional group is stripped deterministically, which
is equivalent to the regex's backtracking here because the alternatives
start with mutually exclusive literals. -/
def is_youtube_url (url : String) : Bool :=
  let cs := url.toList
  let cs1 :=
    match List.dropPrefix? cs "https://".toList with
    | some r => r
    | none =>
      match List.dropPrefix? cs "http://".toList with
      | some r => r
      | none => cs
  let cs2 :=
    match List.dropPrefix? cs1 "www.".toList with
    | some r => r
    | none => cs1
  (List.dropPrefix? cs2 "youtube.com/".toList).isSome
    || (List.dropPrefix? cs2 "youtu.be/".toList).isSome

def DOWNLOADS_DIR : String := "downloads"

/-- Remainder after the first occurrence of `pat` in `s`, if any. -/
def afterSub (pat : List Char) : List Char → Option (List Char)
  | [] => none
  | c :: cs =>
    match List.dropPrefix? (c :: cs) pat with
    | some r => some r
    | none => afterSub pat cs

/-- Model of `urlparse(url).path` for the URL shapes this program sees:
drop the fragment, drop the query, and if the URL has a `://` separator
the path starts at the first `/` after the authority; otherwise the whole
remainder is the path. -/
def urlparsePath (url : String) : List Char :=
  let cs := (url.toList.takeWhile (fun c => c ≠ '#')).takeWhile (fun c => c ≠ '?')
  match afterSub "://".toList cs with
  | some rest => rest.dropWhile (fun c => c ≠ '/')
  | none => cs

def hexVal (c : Char) : Option ℕ :=
  if '0' ≤ c ∧ c ≤ '9' then some (c.toNat - 48)
  else if 'a' ≤ c ∧ c ≤ 'f' then some (c.toNat - 87)
  else if 'A' ≤ c ∧ c ≤ 'F' then some (c.toNat - 55)
  else none

/-- Model of `urllib.parse.unquote` (percent-decoding, ASCII range). -/
def unquoteCs : List Char → List Char
  | '%' :: a :: b :: rest =>
    match hexVal a, hexVal b with
    | some x, some y => Char.ofNat (16 * x + y) :: unquoteCs rest
    | _, _ => '%' :: unquoteCs (a :: b :: rest)
  | c :: rest => c :: unquoteCs rest
  | [] => []
termination_by cs => cs.length

/-- Model of `os.path.basename`: the part after the last `/`. -/
def basenameCs (cs : List Char) : List Char :=
  ((cs.reverse.takeWhile (fun c => c ≠ '/')).reverse)

/-- The per-item state established by `DownloadItem.__init__` plus the
reactive properties the button handler reads. -/
structure ItemState where
  url : String
  is_youtube_dl : Bool
  filename : String
  download_path : String
  bytes_downloaded : ℤ
  is_paused : Bool
deriving DecidableEq

/-- Model of `DownloadItem.__init__`: YouTube-style URLs get the fixed
display name and `download_path = os.path.join(DOWNLOADS_DIR)` — the
downloads DIRECTORY itself (a single-argument join is the argument);
other URLs derive a per-file path under the downloads directory. -/
def DownloadItem_init (url : String) : ItemState :=
  if is_youtube_url url then
    { url := url, is_youtube_dl := true, filename := "YouTube Video",
      download_path := DOWNLOADS_DIR, bytes_downloaded := 0, is_paused := false }
  else
    let fn := String.mk (unquoteCs (basenameCs (urlparsePath url)))
    { url := url, is_youtube_dl := false, filename := fn,
      download_path := DOWNLOADS_DIR ++ "/" ++ fn, bytes_downloaded := 0, is_paused := false }

/-- Observable widget side effects of the button handler. -/
inductive Effect where
  | cancelWorker : Effect
  | startDownload : ℤ → Effect
  | postCancelled : String → Effect
  | removeWidget : Effect
deriving DecidableEq

inductive ButtonId where
  | pauseResume : ButtonId
  | cancel : ButtonId
deriving DecidableEq

/-- Model of `on_button_pressed`.  The pause/resume branch toggles
`is_paused` and either cancels the worker (pause) or calls
`start_download(resume_from=self.bytes_downloaded)` (resume) — touching
no file.  The cancel branch cancels the worker and, when
`os.path.exists(self.download_path)`, calls `os.remove` on it; an
`os.remove` exception propagates out of the handler (`Except.error`),
leaving the filesystem unchanged. -/
def on_button_pressed (it : ItemState) (fs : FS) (b : ButtonId) :
    Except String (ItemState × FS × List Effect) :=
  match b with
  | .pauseResume =>
    if it.is_paused then
      .ok ({ it with is_paused := false }, fs, [.startDownload it.bytes_downloaded])
    else
      .ok ({ it with is_paused := true }, fs, [.cancelWorker])
  | .cancel =>
    if os_path_exists fs it.download_path then
      match os_remove fs it.download_path with
      | .error e => .error e
      | .ok fs' => .ok (it, fs', [.cancelWorker, .postCancelled it.url, .removeWidget])
    else
      .ok (it, fs, [.cancelWorker, .postCancelled it.url, .removeWidget])

/-- Removing a path really removes it: the filtered filesystem no longer
resolves it. -/
theorem fsLookup_filter_self (fs : FS) (p : String) :
    fsLookup (List.filter (fun e => ¬ e.1 = p) fs) p = none := by
  have h : List.find? (fun e => e.1 = p) (List.filter (fun e => ¬ e.1 = p) fs) = none := by
    rw [List.find?_eq_none]
    intro x hx
    have hne := (List.mem_filter.1 hx).2
    simp only [decide_eq_true_eq] at hne ⊢
    exact hne
  simp [fsLookup, h]

/-- C9 Cancel deletes the partial destination file when one exists (and
only that entry), and is the only button transition touching the disk:
Pause cancels the in-flight worker without touching any file, keeping
`bytes_downloaded` as the offset that Resume then passes to
`start_download(resume_from=...)`; with no entry at the destination path,
Cancel deletes nothing. -/
theorem c9_cancel_deletes_pause_preserves (it : ItemState) (fs : FS) :
    (it.is_paused = false →
       on_button_pressed it fs .pauseResume
         = .ok ({ it with is_paused := true }, fs, [.cancelWorker]))
    ∧ (it.is_paused = true →
       on_button_pressed it fs .pauseResume
         = .ok ({ it with is_paused := false }, fs, [.startDownload it.bytes_downloaded]))
    ∧ (fsLookup fs it.download_path = some .file →
       on_button_pressed it fs .cancel
         = .ok (it, List.filter (fun e => ¬ e.1 = it.download_path) fs,
                [.cancelWorker, .postCancelled it.url, .removeWidget])
       ∧ fsLookup (List.filter (fun e => ¬ e.1 = it.download_path) fs) it.download_path = none)
    ∧ (fsLookup fs it.download_path = none →
       on_button_pressed it fs .cancel
         = .ok (it, fs, [.cancelWorker, .postCancelled it.url, .removeWidget])) := by
  refine ⟨?_, ?_, ?_, ?_⟩
  · intro h; simp [on_button_pressed, h]
  · intro h; simp [on_button_pressed, h]
  · intro h
    refine ⟨?_, fsLookup_filter_self fs it.download_path⟩
    simp [on_button_pressed, os_path_exists, os_remove, h]
  · intro h
    simp [on_button_pressed, os_path_exists, os_remove, h]

/-- C9 witness: cancelling a concrete HTTP item with an existing partial
file removes exactly that file. -/
theorem c9_cancel_deletes_pause_preserves_witness :
    on_button_pressed ⟨"http://h/f.bin", false, "f.bin", "downloads/f.bin", 7, false⟩
        [("downloads", FType.dir), ("downloads/f.bin", FType.file)] .cancel
      = .ok (⟨"http://h/f.bin", false, "f.bin", "downloads/f.bin", 7, false⟩,
             List.filter (fun e => ¬ e.1 = (⟨"http://h/f.bin", false, "f.bin", "downloads/f.bin", 7, false⟩ : ItemState).download_path)
               [("downloads", FType.dir), ("downloads/f.bin", FType.file)],
             [.cancelWorker, .postCancelled "http://h/f.bin", .removeWidget])
    ∧ fsLookup (List.filter (fun e => ¬ e.1 = (⟨"http://h/f.bin", false, "f.bin", "downloads/f.bin", 7, false⟩ : ItemState).download_path)
               [("downloads", FType.dir), ("downloads/f.bin", FType.file)]) "downloads/f.bin" = none :=
  (c9_cancel_deletes_pause_preserves
      ⟨"http://h/f.bin", false, "f.bin", "downloads/f.bin", 7, false⟩
      [("downloads", FType.dir), ("downloads/f.bin", FType.file)]).2.2.1 (by decide)

/-- C10 For every URL matching the streaming-video pattern, the stored
destination path is the downloads directory itself (not a per-file
path), so the Cancel delete step calls `os.remove` on that directory —
which exists once downloads have started, modelled by the hypothesis —
and the removal's error branch is hit (`IsADirectoryError` escapes the
handler); no file entry is removed, so the external tool's actual output
file is never deleted. -/
theorem c10_youtube_cancel_targets_directory (url : String) (fs : FS)
    (hurl : is_youtube_url url = true)
    (hdir : fsLookup fs DOWNLOADS_DIR = some .dir) :
    (DownloadItem_init url).download_path = "downloads"
    ∧ (DownloadItem_init url).is_youtube_dl = true
    ∧ on_button_pressed (DownloadItem_init url) fs .cancel = .error "IsADirectoryError" := by
  simp only [DownloadItem_init, hurl, if_true]
  refine ⟨rfl, trivial, ?_⟩
  simp [on_button_pressed, os_path_exists, os_remove, hdir]

/-- C10 witness: a concrete YouTube URL and a filesystem holding the
downloads directory and the tool's output file. -/
theorem c10_youtube_cancel_targets_directory_witness :
    (DownloadItem_init "https://www.youtube.com/watch?v=abc").download_path = "downloads"
    ∧ (DownloadItem_init "https://www.youtube.com/watch?v=abc").is_youtube_dl = true
    ∧ on_button_pressed (DownloadItem_init "https://www.youtube.com/watch?v=abc")
        [("downloads", FType.dir), ("downloads/clip.mp4", FType.file)] .cancel
      = .error "IsADirectoryError" :=
  c10_youtube_cancel_targets_directory "https://www.youtube.com/watch?v=abc"
    [("downloads", FType.dir), ("downloads/clip.mp4", FType.file)] (by decide) (by decide)
